import Mathlib

/-!
Shallow embedding of the multi-provider authentication coordinator
(`AuthManagerService`, `GoogleAuthService`, `MicrosoftAuthService`).

Native user payloads arrive from remote JSON, so every field that the
TypeScript type declares as `string` is modelled as `Option String`
(`none` = the field is `undefined` at runtime, which the untyped
property copies silently propagate).  The mapping functions and the
state machine below are transcribed line by line from the source.
-/

/-- Provider discriminant, the two non-null values of the TypeScript
union `AuthProvider = 'microsoft' | 'google' | null`. -/
inductive ProviderTag
  | microsoft
  | google
deriving DecidableEq

/-- The nullable provider value held by `currentProviderSubject`. -/
abbrev AuthProvider := Option ProviderTag

/-- Native payload of `MicrosoftAuthService` (interface `MicrosoftUser`).
Fields the claims never touch (`idTokenClaims`) are omitted; each
remote-sourced string field is `Option String` to model `undefined`. -/
structure MicrosoftUser where
  id : Option String
  email : Option String
  name : Option String
  username : Option String
  tenantId : Option String
  homeAccountId : Option String
  localAccountId : Option String
deriving DecidableEq

/-- Native payload of `GoogleAuthService` (interface `GoogleUser`). -/
structure GoogleUser where
  id : Option String
  email : Option String
  name : Option String
  picture : Option String
  given_name : Option String
  family_name : Option String
  verified_email : Option Bool
  locale : Option String
deriving DecidableEq

/-- The `rawData` field of `UnifiedUser`: the untouched native payload. -/
inductive RawProviderData
  | ms (u : MicrosoftUser)
  | g (u : GoogleUser)
deriving DecidableEq

/-- Canonical identity record (interface `UnifiedUser`). -/
structure UnifiedUser where
  id : Option String
  email : Option String
  name : Option String
  picture : Option String
  provider : ProviderTag
  rawData : RawProviderData
deriving DecidableEq

/-- `AuthManagerService.mapMicrosoftUser`: field-by-field copy, picture
hard-coded to undefined, provider tag hard-coded to microsoft. -/
def mapMicrosoftUser (user : MicrosoftUser) : UnifiedUser :=
  { id := user.id
  , email := user.email
  , name := user.name
  , picture := none
  , provider := ProviderTag.microsoft
  , rawData := RawProviderData.ms user }

/-- `AuthManagerService.mapGoogleUser`: field-by-field copy, provider
tag hard-coded to google. -/
def mapGoogleUser (user : GoogleUser) : UnifiedUser :=
  { id := user.id
  , email := user.email
  , name := user.name
  , picture := user.picture
  , provider := ProviderTag.google
  , rawData := RawProviderData.g user }

/-- Sum of the two native payload shapes, used to state properties of
the normalization map uniformly over both providers. -/
inductive NativeUser
  | ms (u : MicrosoftUser)
  | g (u : GoogleUser)
deriving DecidableEq

/-- Which adapter produced a native payload. -/
def NativeUser.tag : NativeUser → ProviderTag
  | .ms _ => ProviderTag.microsoft
  | .g _ => ProviderTag.google

/-- The native id field of a payload. -/
def NativeUser.nativeId : NativeUser → Option String
  | .ms u => u.id
  | .g u => u.id

/-- The native email field of a payload. -/
def NativeUser.nativeEmail : NativeUser → Option String
  | .ms u => u.email
  | .g u => u.email

/-- The normalizer: `AuthManager` dispatches microsoft payloads to
`mapMicrosoftUser` and google payloads to `mapGoogleUser`. -/
def normalizeUser : NativeUser → UnifiedUser
  | .ms u => mapMicrosoftUser u
  | .g u => mapGoogleUser u

/-- A payload is well-formed when its required fields are present. -/
def wellFormedNative (u : NativeUser) : Prop :=
  u.nativeId.isSome = true ∧ u.nativeEmail.isSome = true

instance (u : NativeUser) : Decidable (wellFormedNative u) := by
  unfold wellFormedNative
  infer_instance

/-- The three `BehaviorSubject` values of `AuthManagerService`:
`currentUserSubject`, `currentProviderSubject`, `isAuthenticatedSubject`.
This is the SessionState of the specification. -/
structure SessionState where
  currentUser : Option UnifiedUser
  currentProvider : AuthProvider
  isAuthenticated : Bool
deriving DecidableEq

/-- Initial subject values: `null`, `null`, `false`. -/
def emptySession : SessionState :=
  { currentUser := none, currentProvider := none, isAuthenticated := false }

/-- `AuthManagerService.setCurrentUser`: publishes the user, the given
provider, and `authenticated = true`. -/
def setCurrentUser (_s : SessionState) (user : UnifiedUser)
    (provider : AuthProvider) : SessionState :=
  { currentUser := some user
  , currentProvider := provider
  , isAuthenticated := true }

/-- `AuthManagerService.clearCurrentUser`: publishes `null`, `null`,
`false`. -/
def clearCurrentUser (_s : SessionState) : SessionState :=
  { currentUser := none, currentProvider := none, isAuthenticated := false }

/-- One run of `AuthManagerService.signOut`.  The state records the
session subjects; `msThrows` / `gThrows` say whether the invoked
adapter sign-out call throws.  Returns the final state plus the promise
outcome (`Except.ok` = the promise resolves). -/
def signOutRun (s : SessionState) (msThrows gThrows : Bool) :
    SessionState × Except String Unit :=
  let tried : Except String Unit :=
    match s.currentProvider with
    | some ProviderTag.microsoft =>
        if msThrows then Except.error "microsoft adapter signOut threw"
        else Except.ok ()
    | some ProviderTag.google =>
        if gThrows then Except.error "google adapter signOut threw"
        else Except.ok ()
    | none => Except.ok ()
  let afterCatch : Except String Unit :=
    match tried with
    | Except.ok _ => Except.ok ()
    | Except.error _ => Except.ok ()
  (clearCurrentUser s, afterCatch)

/-- `AuthManagerService.isLoading`: derived from the active provider and
the two adapter loading flags. -/
def managerIsLoading (s : SessionState) (msLoading gLoading : Bool) : Bool :=
  match s.currentProvider with
  | some ProviderTag.microsoft => msLoading
  | some ProviderTag.google => gLoading
  | none => false

/-- Events that mutate the manager state: the two adapter
`isAuthenticated$` subscriptions of `initializeAuthManager` (an
authenticated event carries the adapter `getCurrentUser()` snapshot),
the delegating sign-in entry points, and `signOut` (with the two
adapter-failure flags). -/
inductive AuthEvent
  | msAuthenticated (user : Option MicrosoftUser)
  | msUnauthenticated
  | googleAuthenticated (user : Option GoogleUser)
  | googleUnauthenticated
  | signInMicrosoft
  | signInMicrosoftPopup
  | signInGoogle
  | managerSignOut (msThrows gThrows : Bool)
deriving DecidableEq

/-- Transition function of `AuthManagerService`, transcribed from the
two subscriptions in `initializeAuthManager`, the sign-in delegates
(no state change on the manager subjects) and `signOut`. -/
def authStep (s : SessionState) : AuthEvent → SessionState
  | .msAuthenticated u =>
      match u with
      | some user => setCurrentUser s (mapMicrosoftUser user) (some ProviderTag.microsoft)
      | none => s
  | .msUnauthenticated =>
      if s.currentProvider = some ProviderTag.microsoft then clearCurrentUser s else s
  | .googleAuthenticated u =>
      match u with
      | some user => setCurrentUser s (mapGoogleUser user) (some ProviderTag.google)
      | none => s
  | .googleUnauthenticated =>
      if s.currentProvider = some ProviderTag.google then clearCurrentUser s else s
  | .signInMicrosoft => s
  | .signInMicrosoftPopup => s
  | .signInGoogle => s
  | .managerSignOut msThrows gThrows => (signOutRun s msThrows gThrows).1

/-- Applying a whole event trace. -/
def authTrace (s : SessionState) (events : List AuthEvent) : SessionState :=
  events.foldl authStep s

example : authTrace emptySession [] = emptySession := by rfl

/-- Concrete google payload used in scenario instances. -/
def gUser1 : GoogleUser :=
  { id := some "g1"
  , email := some "g1@gmail.com"
  , name := some "G One"
  , picture := some "pic"
  , given_name := some "G"
  , family_name := some "One"
  , verified_email := some true
  , locale := none }

/-- Concrete microsoft payload used in scenario instances. -/
def msUser1 : MicrosoftUser :=
  { id := some "u1"
  , email := some "a@x.com"
  , name := some "A"
  , username := some "a@x.com"
  , tenantId := some "t1"
  , homeAccountId := some "h1"
  , localAccountId := some "u1" }

example :
    (authStep emptySession (AuthEvent.msAuthenticated (some msUser1))).currentProvider
      = some ProviderTag.microsoft := by decide

/-!
Adapter-level models: access-token retrieval of both providers and the
google SDK readiness wait.
-/

/-- The MSAL `acquireTokenSilent` response, as far as
`MicrosoftAuthService.getAccessToken` reads it. -/
structure MsTokenResponse where
  accessToken : String
deriving DecidableEq

/-- `MicrosoftAuthService.getAccessToken`: null without an active
account; null when `acquireTokenSilent` throws (caught and logged);
otherwise `tokenResponse?.accessToken || null`, where the JavaScript
or-null turns both an undefined response and an empty token string into
null. -/
def msGetAccessToken (activeAccount : Option Unit)
    (acquireTokenSilent : Except String (Option MsTokenResponse)) :
    Option String :=
  match activeAccount with
  | none => none
  | some _ =>
      match acquireTokenSilent with
      | Except.error _ => none
      | Except.ok none => none
      | Except.ok (some r) =>
          if r.accessToken = "" then none else some r.accessToken

/-- Operations of `GoogleAuthService` that touch the stored token
(`localStorage` key `google_access_token`), each taken to completion:
`handleAuthResponse` (token from the OAuth callback, plus whether the
profile fetch succeeds), `clearUserState`, `signOut` (revoke may throw,
the catch clears anyway) and `checkExistingAuth` (whether the stored
token still validates). -/
inductive GoogleAuthOp
  | handleAuthResponse (accessToken : Option String) (profileFetchOk : Bool)
  | clearUserState
  | adapterSignOut (revokeThrows : Bool)
  | checkExistingAuth (profileFetchOk : Bool)
deriving DecidableEq

/-- Effect of one completed `GoogleAuthService` operation on the stored
token.  `handleAuthResponse` stores the token only when it is truthy
and removes it again (via `clearUserState`) when the profile fetch
fails; every other listed operation ends in `clearUserState` or leaves
an absent token absent. -/
def googleTokenStep (stored : Option String) : GoogleAuthOp → Option String
  | .handleAuthResponse tok fetchOk =>
      match tok with
      | some t =>
          if t = "" then none
          else if fetchOk then some t
          else none
      | none => none
  | .clearUserState => none
  | .adapterSignOut _ => none
  | .checkExistingAuth fetchOk =>
      match stored with
      | none => none
      | some t => if fetchOk then some t else none

/-- The stored token after a sequence of operations, starting from an
empty store. -/
def googleStoredToken (ops : List GoogleAuthOp) : Option String :=
  ops.foldl googleTokenStep none

/-- `GoogleAuthService.getAccessToken`: returns `getStoredToken()`. -/
def googleGetAccessToken (stored : Option String) : Option String :=
  stored

/-- Whether the readiness poll run at instant `t` (milliseconds) sees
the google SDK global; `scriptLoadTime` is the instant the SDK becomes
available (`none` = never). -/
def googlePollHit (scriptLoadTime : Option Nat) (t : Nat) : Bool :=
  match scriptLoadTime with
  | none => false
  | some lt => decide (lt ≤ t)

/-- Promise of `GoogleAuthService.loadGoogleScript`, with time
discretized in milliseconds: the poll runs at 0ms and every 100ms
thereafter, and the rejection timer fires at 10000ms and wins the tie
at the deadline, so the successful polls are those at `100 * k` for
`k < 100`.  Returns the settle time and the promise outcome. -/
def loadGoogleScriptRun (scriptLoadTime : Option Nat) :
    Nat × Except String Unit :=
  match (List.range 100).find? (fun k => googlePollHit scriptLoadTime (100 * k)) with
  | some k => (100 * k, Except.ok ())
  | none => (10000, Except.error "Google script failed to load")

example : loadGoogleScriptRun (some 0) = (0, Except.ok ()) := by rfl
example : loadGoogleScriptRun (some 250) = (300, Except.ok ()) := by rfl
example : (loadGoogleScriptRun none).1 = 10000 := by decide

/-- A google payload with both required fields (`id`, `email`) missing,
as an untyped runtime value can be. -/
def gUserBad : GoogleUser :=
  { id := none
  , email := none
  , name := some "No Fields"
  , picture := some "p"
  , given_name := none
  , family_name := none
  , verified_email := none
  , locale := none }

/-- A microsoft payload with every field missing. -/
def msUserBad : MicrosoftUser :=
  { id := none
  , email := none
  , name := none
  , username := none
  , tenantId := none
  , homeAccountId := none
  , localAccountId := none }

/-- The session invariant of the specification: authenticated iff a
user is present, a user is present iff a provider is active, and at
most one provider is active. -/
def sessionInvariant (s : SessionState) : Prop :=
  (s.isAuthenticated = true ↔ s.currentUser.isSome = true) ∧
  (s.currentUser.isSome = true ↔ s.currentProvider.isSome = true) ∧
  ∀ p q : ProviderTag,
    s.currentProvider = some p → s.currentProvider = some q → p = q

theorem authStep_preserves_sessionInvariant (s : SessionState) (e : AuthEvent)
    (h : sessionInvariant s) : sessionInvariant (authStep s e) := by
  obtain ⟨h1, h2, h3⟩ := h
  cases e with
  | msAuthenticated u =>
      cases u with
      | some user => simp [authStep, setCurrentUser, sessionInvariant]
      | none => exact ⟨h1, h2, h3⟩
  | msUnauthenticated =>
      by_cases hp : s.currentProvider = some ProviderTag.microsoft
      · simp [authStep, hp, clearCurrentUser, sessionInvariant]
      · have hid : authStep s AuthEvent.msUnauthenticated = s := by
          simp [authStep, hp]
        rw [hid]
        exact ⟨h1, h2, h3⟩
  | googleAuthenticated u =>
      cases u with
      | some user => simp [authStep, setCurrentUser, sessionInvariant]
      | none => exact ⟨h1, h2, h3⟩
  | googleUnauthenticated =>
      by_cases hp : s.currentProvider = some ProviderTag.google
      · simp [authStep, hp, clearCurrentUser, sessionInvariant]
      · have hid : authStep s AuthEvent.googleUnauthenticated = s := by
          simp [authStep, hp]
        rw [hid]
        exact ⟨h1, h2, h3⟩
  | signInMicrosoft => exact ⟨h1, h2, h3⟩
  | signInMicrosoftPopup => exact ⟨h1, h2, h3⟩
  | signInGoogle => exact ⟨h1, h2, h3⟩
  | managerSignOut msThrows gThrows =>
      simp [authStep, signOutRun, clearCurrentUser, sessionInvariant]

theorem authTrace_preserves_sessionInvariant (l : List AuthEvent) :
    ∀ s, sessionInvariant s → sessionInvariant (authTrace s l) := by
  induction l with
  | nil => intro s h; exact h
  | cons e t ih =>
      intro s h
      exact ih (authStep s e) (authStep_preserves_sessionInvariant s e h)

/-- C1: the claim says an authenticated event from the non-active
provider is discarded and the SessionState left unchanged.  The code
adopts it instead: with google active, a microsoft authenticated event
switches the session to microsoft, so the state does change. -/
theorem c1_stale_event_counterexample :
    (authStep emptySession (AuthEvent.googleAuthenticated (some gUser1))).currentProvider
      = some ProviderTag.google ∧
    (authStep (authStep emptySession (AuthEvent.googleAuthenticated (some gUser1)))
        (AuthEvent.msAuthenticated (some msUser1))).currentProvider
      = some ProviderTag.microsoft ∧
    authStep (authStep emptySession (AuthEvent.googleAuthenticated (some gUser1)))
        (AuthEvent.msAuthenticated (some msUser1))
      ≠ authStep emptySession (AuthEvent.googleAuthenticated (some gUser1)) := by
  decide

/-- C1 (amended): when the other provider is active and an adapter
reports authenticated with a resolvable user, `AuthManager` adopts the
event — it publishes the new user, switches `activeProvider` to the
emitting provider, and so changes the session away from the previously
active provider; no discard happens.  Both directions of the provider
pair: a microsoft event while google is active (state `s`), and a
google event while microsoft is active (state `t`, the cited spec
scenario of enterprise active with the consumer emitting). -/
theorem c1_amended_event_adopted (s t : SessionState)
    (mu : MicrosoftUser) (gu : GoogleUser)
    (hs : s.currentProvider = some ProviderTag.google)
    (ht : t.currentProvider = some ProviderTag.microsoft) :
    ((authStep s (AuthEvent.msAuthenticated (some mu))).currentProvider
        = some ProviderTag.microsoft ∧
      (authStep s (AuthEvent.msAuthenticated (some mu))).currentUser
        = some (mapMicrosoftUser mu) ∧
      (authStep s (AuthEvent.msAuthenticated (some mu))).currentProvider
        ≠ s.currentProvider) ∧
    (authStep t (AuthEvent.googleAuthenticated (some gu))).currentProvider
        = some ProviderTag.google ∧
      (authStep t (AuthEvent.googleAuthenticated (some gu))).currentUser
        = some (mapGoogleUser gu) ∧
      (authStep t (AuthEvent.googleAuthenticated (some gu))).currentProvider
        ≠ t.currentProvider := by
  refine ⟨⟨rfl, rfl, ?_⟩, rfl, rfl, ?_⟩
  · rw [hs]
    simp [authStep, setCurrentUser]
  · rw [ht]
    simp [authStep, setCurrentUser]

/-- Instance of `c1_amended_event_adopted` at the scenario states:
google active hit by a microsoft event, and microsoft active hit by a
google event. -/
theorem c1_amended_event_adopted_witness :
    (authStep (authStep emptySession (AuthEvent.googleAuthenticated (some gUser1)))
        (AuthEvent.msAuthenticated (some msUser1))).currentProvider
      = some ProviderTag.microsoft :=
  (c1_amended_event_adopted
    (authStep emptySession (AuthEvent.googleAuthenticated (some gUser1)))
    (authStep emptySession (AuthEvent.msAuthenticated (some msUser1)))
    msUser1 gUser1 (by decide) (by decide)).1.1

/-- C2: the claim says event application is permutation-invariant and
that with provider A active, events from A then B leave A active.  In
the code the last authenticated event wins: A-then-B ends with B
active, and the two arrival orders reach different final states. -/
theorem c2_order_independence_counterexample :
    (authTrace (authStep emptySession (AuthEvent.msAuthenticated (some msUser1)))
        [AuthEvent.msAuthenticated (some msUser1),
         AuthEvent.googleAuthenticated (some gUser1)]).currentProvider
      = some ProviderTag.google ∧
    authTrace emptySession
        [AuthEvent.msAuthenticated (some msUser1),
         AuthEvent.googleAuthenticated (some gUser1)]
      ≠ authTrace emptySession
        [AuthEvent.googleAuthenticated (some gUser1),
         AuthEvent.msAuthenticated (some msUser1)] := by
  decide

/-- C2 (amended): event application is order-dependent, last writer
wins — after any trace, a final authenticated event with a resolvable
user from either provider determines the whole final state, so two
orders of the same events generally end in different states. -/
theorem c2_amended_last_writer_wins (s : SessionState) (l : List AuthEvent)
    (mu : MicrosoftUser) (gu : GoogleUser) :
    authTrace s (l ++ [AuthEvent.msAuthenticated (some mu)]) =
      { currentUser := some (mapMicrosoftUser mu)
      , currentProvider := some ProviderTag.microsoft
      , isAuthenticated := true } ∧
    authTrace s (l ++ [AuthEvent.googleAuthenticated (some gu)]) =
      { currentUser := some (mapGoogleUser gu)
      , currentProvider := some ProviderTag.google
      , isAuthenticated := true } := by
  constructor <;>
    simp [authTrace, List.foldl_append, authStep, setCurrentUser]

/-- C3: every state reachable from the empty session by adapter
events, sign-ins and sign-outs satisfies the session invariant:
authenticated iff user present iff provider active, and at most one
active provider. -/
theorem c3_reachable_session_invariant (l : List AuthEvent) :
    sessionInvariant (authTrace emptySession l) :=
  authTrace_preserves_sessionInvariant l emptySession
    (by simp [sessionInvariant, emptySession])

/-- C4: the claim says a payload missing `id` or `email` makes
normalization fail and is treated as an unauthenticated event.  The
code has no failure path: the mapper copies the absent fields and the
manager publishes the partial user as an authenticated session. -/
theorem c4_fail_closed_counterexample :
    (normalizeUser (NativeUser.g gUserBad)).id = none ∧
    (normalizeUser (NativeUser.g gUserBad)).email = none ∧
    (authStep emptySession (AuthEvent.googleAuthenticated (some gUserBad))).isAuthenticated
      = true ∧
    (authStep emptySession (AuthEvent.googleAuthenticated (some gUserBad))).currentUser
      = some (mapGoogleUser gUserBad) := by
  decide

/-- C4 (amended): normalization is total and never fails — a native
payload missing `id` or `email` is still mapped to a `UnifiedUser`
carrying the absent fields verbatim, and `AuthManager` publishes it as
an authenticated session instead of treating it as unauthenticated. -/
theorem c4_amended_no_fail_closed (gu : GoogleUser) (mu : MicrosoftUser)
    (hg : gu.id = none ∨ gu.email = none)
    (hm : mu.id = none ∨ mu.email = none) :
    (mapGoogleUser gu).id = gu.id ∧
    (mapGoogleUser gu).email = gu.email ∧
    (mapMicrosoftUser mu).id = mu.id ∧
    (mapMicrosoftUser mu).email = mu.email ∧
    (∀ s, authStep s (AuthEvent.googleAuthenticated (some gu)) =
      { currentUser := some (mapGoogleUser gu)
      , currentProvider := some ProviderTag.google
      , isAuthenticated := true }) ∧
    (∀ s, authStep s (AuthEvent.msAuthenticated (some mu)) =
      { currentUser := some (mapMicrosoftUser mu)
      , currentProvider := some ProviderTag.microsoft
      , isAuthenticated := true }) :=
  ⟨rfl, rfl, rfl, rfl, fun _ => rfl, fun _ => rfl⟩

/-- Instance of `c4_amended_no_fail_closed` at the malformed payloads. -/
theorem c4_amended_no_fail_closed_witness :
    (mapGoogleUser gUserBad).id = gUserBad.id :=
  (c4_amended_no_fail_closed gUserBad msUserBad (Or.inl rfl) (Or.inl rfl)).1

theorem signOutRun_resolves (s : SessionState) (msThrows gThrows : Bool) :
    (signOutRun s msThrows gThrows).2 = Except.ok () := by
  rcases s with ⟨u, p, a⟩
  rcases p with _ | p
  · rfl
  · cases p <;> cases msThrows <;> cases gThrows <;> rfl

/-- C5: `signOut` unconditionally clears the session — user absent,
provider none, authenticated false and the derived loading flag false —
whether or not the invoked adapter sign-out call fails. -/
theorem c5_signOut_clears_unconditionally (s : SessionState)
    (msThrows gThrows msLoading gLoading : Bool) :
    (signOutRun s msThrows gThrows).1 = emptySession ∧
    (signOutRun s msThrows gThrows).1.currentProvider = none ∧
    (signOutRun s msThrows gThrows).1.currentUser = none ∧
    (signOutRun s msThrows gThrows).1.isAuthenticated = false ∧
    managerIsLoading (signOutRun s msThrows gThrows).1 msLoading gLoading = false :=
  ⟨rfl, rfl, rfl, rfl, rfl⟩

/-- C6: two consecutive `signOut` calls (the second one necessarily
with no active session) both leave the empty session, both resolve
without error, and leave the derived loading flag false. -/
theorem c6_signOut_idempotent (s : SessionState)
    (t1 t2 t3 t4 msLoading gLoading : Bool) :
    (signOutRun s t1 t2).1 = emptySession ∧
    (signOutRun s t1 t2).2 = Except.ok () ∧
    (signOutRun (signOutRun s t1 t2).1 t3 t4).1 = emptySession ∧
    (signOutRun (signOutRun s t1 t2).1 t3 t4).2 = Except.ok () ∧
    managerIsLoading (signOutRun (signOutRun s t1 t2).1 t3 t4).1 msLoading gLoading
      = false :=
  ⟨rfl, signOutRun_resolves s t1 t2, rfl,
    signOutRun_resolves (signOutRun s t1 t2).1 t3 t4, rfl⟩

/-- C10: `signOut` never rejects — from any session state, and even
when the invoked adapter sign-out throws, the exception is swallowed by
the internal catch and the promise resolves after the state is
cleared. -/
theorem c10_signOut_never_rejects (s : SessionState) (msThrows gThrows : Bool) :
    (signOutRun s msThrows gThrows).2 = Except.ok () ∧
    (signOutRun s msThrows gThrows).1.currentUser = none ∧
    (signOutRun s msThrows gThrows).1.currentProvider = none ∧
    (signOutRun s msThrows gThrows).1.isAuthenticated = false :=
  ⟨signOutRun_resolves s msThrows gThrows, rfl, rfl, rfl⟩

/-- C7: for every well-formed native payload the normalizer keeps the
producing provider tag and copies the native id field unchanged. -/
theorem c7_normalize_roundtrip (u : NativeUser) (h : wellFormedNative u) :
    (normalizeUser u).provider = u.tag ∧ (normalizeUser u).id = u.nativeId := by
  cases u <;> exact ⟨rfl, rfl⟩

/-- Instance of `c7_normalize_roundtrip` at a concrete payload. -/
theorem c7_normalize_roundtrip_witness :
    (normalizeUser (NativeUser.g gUser1)).provider = (NativeUser.g gUser1).tag :=
  (c7_normalize_roundtrip (NativeUser.g gUser1) (by decide)).1

theorem googleTokenStep_nonempty (stored : Option String) (op : GoogleAuthOp)
    (h : stored ≠ some "") : googleTokenStep stored op ≠ some "" := by
  cases op with
  | handleAuthResponse tok fetchOk =>
      cases tok with
      | none => simp [googleTokenStep]
      | some t =>
          by_cases ht : t = "" <;> cases fetchOk <;>
            simp [googleTokenStep, ht]
  | clearUserState => simp [googleTokenStep]
  | adapterSignOut r => simp [googleTokenStep]
  | checkExistingAuth fetchOk =>
      cases stored with
      | none => simp [googleTokenStep]
      | some t =>
          cases fetchOk with
          | false => simp [googleTokenStep]
          | true => simpa [googleTokenStep] using h

theorem googleTokenFold_nonempty (ops : List GoogleAuthOp) :
    ∀ st, st ≠ some "" → List.foldl googleTokenStep st ops ≠ some "" := by
  induction ops with
  | nil => intro st h; exact h
  | cons op t ih =>
      intro st h
      exact ih (googleTokenStep st op) (googleTokenStep_nonempty st op h)

/-- C8: token retrieval fails (returns null, the `TokenUnavailable`
outcome) when there is no active account or the silent acquisition
throws; a successful result is always a non-empty token taken verbatim
from the silent-acquisition response.  On the google side the stored
token reachable by any operation sequence is never the empty string,
and `getAccessToken` returns exactly that stored value. -/
theorem c8_access_token_sound (acct : Option Unit)
    (acq : Except String (Option MsTokenResponse)) (e : String)
    (ops : List GoogleAuthOp) :
    msGetAccessToken none acq = none ∧
    msGetAccessToken acct (Except.error e) = none ∧
    (∀ t, msGetAccessToken acct acq = some t →
      t ≠ "" ∧ acq = Except.ok (some { accessToken := t })) ∧
    googleStoredToken ops ≠ some "" ∧
    googleGetAccessToken (googleStoredToken ops) = googleStoredToken ops := by
  refine ⟨rfl, ?_, ?_, ?_, rfl⟩
  · cases acct <;> rfl
  · intro t h
    cases acct with
    | none => simp [msGetAccessToken] at h
    | some a =>
        cases acq with
        | error e2 => simp [msGetAccessToken] at h
        | ok m =>
            cases m with
            | none => simp [msGetAccessToken] at h
            | some r =>
                by_cases hr : r.accessToken = ""
                · simp [msGetAccessToken, hr] at h
                · simp only [msGetAccessToken, if_neg hr] at h
                  obtain rfl : r.accessToken = t := Option.some.inj h
                  exact ⟨hr, rfl⟩
  · exact googleTokenFold_nonempty ops none (by simp)

/-- C9: the google SDK readiness wait settles within the 10000 ms
ceiling for every script-availability time, and when the SDK never
becomes available the promise rejects at the ceiling with the
script-load error instead of waiting forever. -/
theorem c9_bounded_readiness_wait (scriptLoadTime : Option Nat) :
    (loadGoogleScriptRun scriptLoadTime).1 ≤ 10000 ∧
    (scriptLoadTime = none →
      loadGoogleScriptRun scriptLoadTime
        = (10000, Except.error "Google script failed to load")) := by
  constructor
  · rcases hfind : (List.range 100).find?
        (fun k => googlePollHit scriptLoadTime (100 * k)) with _ | k
    · simp [loadGoogleScriptRun, hfind]
    · have hk : k ∈ List.range 100 := List.mem_of_find?_eq_some hfind
      have hk99 : k < 100 := List.mem_range.mp hk
      simp only [loadGoogleScriptRun, hfind]
      omega
  · intro hnone
    subst hnone
    rfl
